import Mathlib

/-!
Shallow embedding of the HITL (human-in-the-loop) MCP proxy from
src/packages/agent0/src/mcp-server/HITLProxy.ts.

The proxy gates tool-invocation requests: blocked tools are rejected,
high-risk tools are deferred behind an out-of-band approval task, and
normal tools are forwarded to a downstream server.  External
collaborators (the approval channel `HITLApprovalService`, the
downstream MCP client, `Date.now()` and `Math.random()`) are modelled
as explicit oracle arguments; JavaScript exceptions are modelled with
`Except`, and a JS `null`/`undefined` return value is `Option.none`.
-/

namespace HITL

/-- JSON-like values, modelling the opaque structured payloads
(tool arguments) that flow through the proxy. -/
inductive JValue where
  | jnull : JValue
  | jbool (b : Bool) : JValue
  | jnum (n : Int) : JValue
  | jstr (s : String) : JValue
  | jarr (items : List JValue) : JValue
  | jobj (fields : List (String × JValue)) : JValue

/-- One entry of a result's `content` array: `{type, text}`. -/
structure ContentItem where
  type : String
  text : String

/-- The `structuredContent` object of a result payload.  The proxy only
ever writes the fields below; absent fields are `none`. -/
structure StructuredContent where
  status : Option String := none
  next_action : Option String := none
  tool_to_call : Option String := none
  taskId : Option String := none
  tool_args : Option JValue := none
  tool : Option String := none

/-- A call-tool result payload `{content, structuredContent?, isError?}`. -/
structure CallResult where
  content : List ContentItem := []
  structuredContent : Option StructuredContent := none
  isError : Option Bool := none

/-- Task status as stored in `pendingTasks` (source lines 50-57). -/
inductive TaskStatus where
  | PENDING : TaskStatus
  | APPROVED : TaskStatus
  | DENIED : TaskStatus

/-- One entry of the `pendingTasks` map (source lines 50-57). -/
structure PendingTask where
  toolName : String
  toolArgs : JValue
  status : TaskStatus
  hitlOobCode : Option String

/-- The `pendingTasks` JS `Map`, modelled as an association list with
unique keys (JS `Map` keys are unique; `set` replaces in place, `delete`
removes the key). -/
abbrev TaskMap := List (String × PendingTask)

/-- `Map.get` -/
def mapGet : TaskMap → String → Option PendingTask
  | [], _ => none
  | (k, v) :: rest, key => if k = key then some v else mapGet rest key

/-- `Map.set`: replace an existing key in place, otherwise append. -/
def mapSet : TaskMap → String → PendingTask → TaskMap
  | [], key, v => [(key, v)]
  | (k, w) :: rest, key, v =>
    if k = key then (key, v) :: rest else (k, w) :: mapSet rest key v

/-- `Map.delete`: remove the key.  On maps with unique keys (the only
states a JS `Map` can be in) dropping every occurrence agrees with
removing the sole entry. -/
def mapDelete : TaskMap → String → TaskMap
  | [], _ => []
  | (k, v) :: rest, key =>
    if k = key then mapDelete rest key else (k, v) :: mapDelete rest key

/-- A JS error object as inspected by the catch blocks:
`error.error`, `error.error_description`, `error.message`. -/
structure ErrObj where
  error : Option String := none
  error_description : Option String := none
  message : String := ""

/-- JS `a || b` on an optional string (falsy when absent or empty). -/
def jsStringOr (o : Option String) (dflt : String) : String :=
  match o with
  | none => dflt
  | some s => if s = "" then dflt else s

/-- JS truthiness of `task.hitlOobCode` (`!task.hitlOobCode` is true for
`undefined` and for the empty string); returns the usable code. -/
def oobTruthy : Option String → Option String
  | none => none
  | some s => if s = "" then none else some s

/-- Not-found payload of `handleTaskStatusCheck` (source lines 311-316). -/
def notFoundResult (taskId : String) : CallResult :=
  { content := [⟨"text", "Error: No active task found with ID " ++ taskId ++
      ". It may have already expired or been completed."⟩] }

/-- Still-pending payload of `handleTaskStatusCheck` (source lines 341-347). -/
def pendingStatusResult (taskId : String) (toolName : String) : CallResult :=
  { content := [⟨"text", "Task " ++ taskId ++
      " is still PENDING human approval. Please wait and check again."⟩],
    structuredContent := some { status := some "PENDING", tool := some toolName } }

/-- Denied/failed payload of the catch block (source lines 349-362). -/
def deniedResult (taskId : String) (e : ErrObj) : CallResult :=
  { isError := some true,
    content := [⟨"text", "Task " ++ taskId ++
      " approval failed or was denied. Status: " ++
      jsStringOr e.error "DENIED/FAILED" ++ "."⟩] }

/-- Completed payload: the downstream result spread-merged with an
overriding `structuredContent` (source lines 334-340). -/
def completedResult (r : CallResult) (toolName : String) : CallResult :=
  { r with
    structuredContent := some ({ status := some "COMPLETED", tool := some toolName } : StructuredContent) }

/-- Everything one `handleTaskStatusCheck` invocation does: the returned
payload, the new task map, the downstream calls it made (name, args) and
the approval-channel queries it made (OOB codes). -/
structure StatusEffects where
  result : CallResult
  tasks : TaskMap
  downstreamCalls : List (String × JValue)
  channelQueries : List String

/-- `HITLProxy.handleTaskStatusCheck` (source lines 308-363).
`checkForApproval` is the approval channel oracle (ok = its returned
string, error = the thrown error object); `downstreamCall` is the
downstream client's `callTool` oracle.  The `try` block spans both the
channel query and the downstream call, so a thrown downstream error also
lands in the catch block (task deleted, denied payload). -/
def handleTaskStatusCheck (tasks : TaskMap)
    (checkForApproval : String → Except ErrObj String)
    (downstreamCall : String → JValue → Except ErrObj CallResult)
    (taskId : String) : StatusEffects :=
  match mapGet tasks taskId with
  | none => ⟨notFoundResult taskId, tasks, [], []⟩
  | some task =>
    match oobTruthy task.hitlOobCode with
    | none => ⟨notFoundResult taskId, tasks, [], []⟩
    | some oob =>
      match checkForApproval oob with
      | Except.ok verdict =>
        if verdict = "APPROVED" then
          match downstreamCall task.toolName task.toolArgs with
          | Except.ok r =>
            ⟨completedResult r task.toolName, mapDelete tasks taskId,
             [(task.toolName, task.toolArgs)], [oob]⟩
          | Except.error e =>
            ⟨deniedResult taskId e, mapDelete tasks taskId,
             [(task.toolName, task.toolArgs)], [oob]⟩
        else
          ⟨pendingStatusResult taskId task.toolName, tasks, [], [oob]⟩
      | Except.error e =>
        ⟨deniedResult taskId e, mapDelete tasks taskId, [], [oob]⟩

/-- Static configuration of one downstream server (source lines 14-20). -/
structure MCPServerConfig where
  command : String
  args : List String
  env : List (String × String)
  HighRiskTools : List String
  BlockedTools : List String

/-- The static `MCPServerMap` table (source lines 59-68); a JS object
lookup yields `undefined` for any other key.  `accessToken` models the
`process.env.ACCESS_TOKEN` read baked into the table. -/
def MCPServerMap (accessToken : String) (name : String) : Option MCPServerConfig :=
  if name = "todo-mcp-server" then
    some { command := "/usr/bin/node",
           args := ["dist/mcp-server/todo-mcp-server-http.js"],
           env := [("ACCESS_TOKEN", accessToken)],
           HighRiskTools := ["add_todos"],
           BlockedTools := ["welcome_to_okta"] }
  else
    none

/-- Decimal digit character of `d` (callers only pass `d < 10`). -/
def decDigit : Nat → Char
  | 0 => '0'
  | 1 => '1'
  | 2 => '2'
  | 3 => '3'
  | 4 => '4'
  | 5 => '5'
  | 6 => '6'
  | 7 => '7'
  | 8 => '8'
  | _ => '9'

/-- Decimal rendering of a natural number, written with explicit fuel so
it is structurally recursive; `fuel > n` always suffices because the
argument shrinks by a factor of ten each step. -/
def natToDecListAux : Nat → Nat → List Char
  | 0, _ => []
  | fuel + 1, n =>
    if n < 10 then [decDigit n]
    else natToDecListAux fuel (n / 10) ++ [decDigit (n % 10)]

/-- Decimal rendering of a natural number, as JS string interpolation
of an integer `Date.now()` produces it. -/
def natToDecList (n : Nat) : List Char :=
  natToDecListAux (n + 1) n

def natToDec (n : Nat) : String :=
  String.mk (natToDecList n)

/-- `randRepr.substring(2, 6)` on the base-36 rendering of a
`Math.random()` draw (`"0.…"`, or `"0"` for a zero draw): drop the two
leading characters, keep at most four. -/
def randSuffix (randRepr : String) : String :=
  String.mk ((randRepr.data.drop 2).take 4)

/-- TaskId generation (source line 164):
`task-<Date.now()>-<Math.random().toString(36).substring(2, 6)>`. -/
def genTaskId (now : Nat) (randRepr : String) : String :=
  "task-" ++ natToDec now ++ "-" ++ randSuffix randRepr

/-- One `notifications/progress` message (source lines 190-198). -/
structure ProgressNotification where
  progressToken : Option JValue
  progress : Nat
  total : Nat
  message : String

/-- JS truthiness of the `progressToken` guard (source line 188). -/
def tokenTruthy : Option JValue → Bool
  | none => false
  | some JValue.jnull => false
  | some (JValue.jbool b) => b
  | some (JValue.jnum n) => if n = 0 then false else true
  | some (JValue.jstr s) => if s = "" then false else true
  | some (JValue.jarr _) => true
  | some (JValue.jobj _) => true

/-- Text of the pending-approval receipt (source lines 204-207). -/
def pendingText (toolName : String) : String :=
  "AUTHORIZATION_REQUIRED: Task " ++ toolName ++
  " requires approval. The task is pending. The next necessary step is to call the check_task_status tool with the Task ID to get the current status."

/-- The structuredContent of the pending-approval receipt
(source lines 209-217). -/
def pendingStructuredContent (taskId : String) : StructuredContent :=
  { status := some "PENDING_APPROVAL_POLL",
    next_action := some "call_tool",
    tool_to_call := some "check_task_status",
    taskId := some taskId,
    tool_args := some (JValue.jobj [("taskId", JValue.jstr taskId)]) }

/-- The pending-approval receipt payload (source lines 204-218). -/
def pendingReceiptResult (toolName taskId : String) : CallResult :=
  { content := [⟨"text", pendingText toolName⟩],
    structuredContent := some (pendingStructuredContent taskId) }

/-- Everything one `callTool` invocation does: the returned value
(`none` models a JS `null` return), the new task map, the downstream
calls made, how many approval requests were sent to the channel, and the
progress notifications emitted. -/
structure CallEffects where
  result : Option CallResult
  tasks : TaskMap
  downstreamCalls : List (String × JValue)
  approvalRequests : Nat
  notifications : List ProgressNotification

/-- `HITLProxy.callTool` (source lines 141-232).  `now`/`randRepr` are
the `Date.now()` and `Math.random().toString(36)` observations consumed
by taskId generation; `sendApprovalOutcome` is the channel's response to
`sendApprovalRequest` (ok = OOB code, error = thrown error);
`downstreamCall` is the downstream client's `callTool` oracle. -/
def callTool (accessToken serverName : String) (tasks : TaskMap)
    (now : Nat) (randRepr : String)
    (sendApprovalOutcome : Except ErrObj String)
    (downstreamCall : String → JValue → Except ErrObj CallResult)
    (toolName : String) (toolargs : JValue)
    (progressToken : Option JValue) : CallEffects :=
  match MCPServerMap accessToken serverName with
  | none => ⟨none, tasks, [], 0, []⟩
  | some config =>
    if toolName ∈ config.BlockedTools then
      ⟨some { isError := some true,
              content := [⟨"text", "❌ Access to " ++ toolName ++ " has been blocked."⟩] },
       tasks, [], 0, []⟩
    else if toolName ∈ config.HighRiskTools then
      let taskId := genTaskId now randRepr
      match sendApprovalOutcome with
      | Except.error e =>
        ⟨some { isError := some true,
                content := [⟨"text", "Authorization setup failed: " ++ e.message⟩] },
         tasks, [], 1, []⟩
      | Except.ok oobCode =>
        let newTasks := mapSet tasks taskId ⟨toolName, toolargs, TaskStatus.PENDING, some oobCode⟩
        let notifs := if tokenTruthy progressToken then
            [⟨progressToken, 10, 100, "Awaiting Approval for High Risk Task"⟩]
          else []
        ⟨some (pendingReceiptResult toolName taskId), newTasks, [], 1, notifs⟩
    else
      match downstreamCall toolName toolargs with
      | Except.ok r => ⟨some r, tasks, [(toolName, toolargs)], 0, []⟩
      | Except.error _ => ⟨none, tasks, [(toolName, toolargs)], 0, []⟩

/-- The `inputSchema` of a tool definition. -/
structure InputSchema where
  type : String
  properties : List (String × JValue)
  required : Option (List String) := none

/-- A tool catalog entry `{name, description, inputSchema}`. -/
structure ToolDefinition where
  name : String
  description : String
  inputSchema : InputSchema

/-- `HITLProxy.getTools` (source lines 119-139): unknown server name
logs and returns `[]`; a downstream `listTools` failure is caught and
also yields `[]`. -/
def getTools (accessToken serverName : String)
    (downstreamListTools : Except ErrObj (List ToolDefinition)) : List ToolDefinition :=
  match MCPServerMap accessToken serverName with
  | none => []
  | some _ =>
    match downstreamListTools with
    | Except.ok ts => ts
    | Except.error _ => []

/-- `HITLProxy.initializeDownstreamConnection` (source lines 104-117):
a missing config entry throws, which is fatal at startup. -/
def initializeDownstreamConnection (accessToken serverName : String) : Except String Unit :=
  match MCPServerMap accessToken serverName with
  | none => Except.error ("Transport config for " ++ serverName ++ " not found.")
  | some _ => Except.ok ()

/-- The guard of the polling loop (source lines 286-289):
`status && status !== "PENDING"` on `result?.structuredContent?.status`.
Results without `structuredContent` (or with an absent/empty status)
never pass this guard. -/
def scTruthyNonPending (r : CallResult) : Bool :=
  match r.structuredContent with
  | none => false
  | some sc =>
    match sc.status with
    | none => false
    | some s => if s = "" then false else if s = "PENDING" then false else true

/-- What one outer `check_task_status` request does: the value returned
to the caller (`none` only if the loop body never ran), the final task
map, the accumulated downstream calls and channel queries, and how many
times `handleTaskStatusCheck` ran. -/
structure LoopEffects where
  result : Option CallResult
  tasks : TaskMap
  downstreamCalls : List (String × JValue)
  channelQueries : List String
  iterations : Nat

/-- The bounded polling loop of the `check_task_status` handler (source
lines 281-292).  `fuel` is the number of wall-clock window checks left
(the 10000 ms window with 4000 ms sleeps yields a small fixed number);
`i` indexes the iteration so the per-iteration oracles `ck`/`ds` can
vary over time.  `lastresult` mirrors the JS `lastresult` variable. -/
def statusCheckLoop (ck : Nat → String → Except ErrObj String)
    (ds : Nat → String → JValue → Except ErrObj CallResult)
    (taskId : String) :
    Nat → Nat → TaskMap → Option CallResult →
    List (String × JValue) → List String → Nat → LoopEffects
  | 0, _, tasks, lastresult, dcs, cqs, iters => ⟨lastresult, tasks, dcs, cqs, iters⟩
  | fuel + 1, i, tasks, lastresult, dcs, cqs, iters =>
    let e := handleTaskStatusCheck tasks (ck i) (ds i) taskId
    if scTruthyNonPending e.result then
      ⟨some e.result, e.tasks, dcs ++ e.downstreamCalls, cqs ++ e.channelQueries, iters + 1⟩
    else
      statusCheckLoop ck ds taskId fuel (i + 1) e.tasks (some e.result)
        (dcs ++ e.downstreamCalls) (cqs ++ e.channelQueries) (iters + 1)

/-- Field access `args.taskId` guarded by
`!args || typeof args.taskId !== "string"` (source line 276). -/
def lookupField : List (String × JValue) → String → Option JValue
  | [], _ => none
  | (k, v) :: rest, key => if k = key then some v else lookupField rest key

def getTaskIdArg : Option JValue → Option String
  | some (JValue.jobj fields) =>
    match lookupField fields "taskId" with
    | some (JValue.jstr s) => some s
    | _ => none
  | _ => none

/-- Invalid-argument payload of the `check_task_status` handler
(source lines 277-279). -/
def argErrorResult : CallResult :=
  { content := [⟨"text", "Error: check_task_status requires a valid taskId argument."⟩] }

/-- The caller-facing `check_task_status` branch of the call-tool
request handler (source lines 275-292): argument validation, then the
bounded polling loop.  The JS loop always runs at least one iteration
(the first `Date.now()` check trivially passes), hence `fuel + 1`. -/
def checkTaskStatusHandler (fuel : Nat) (tasks : TaskMap)
    (ck : Nat → String → Except ErrObj String)
    (ds : Nat → String → JValue → Except ErrObj CallResult)
    (args : Option JValue) : LoopEffects :=
  match getTaskIdArg args with
  | none => ⟨some argErrorResult, tasks, [], [], 0⟩
  | some taskId => statusCheckLoop ck ds taskId (fuel + 1) 0 tasks none [] [] 0

/-- Decimal digit predicate. -/
def isDecDigitChar (c : Char) : Bool :=
  decide ('0' ≤ c) && decide (c ≤ '9')

/-- Alphanumeric predicate (base-36 output characters are a subset). -/
def isAlnumChar (c : Char) : Bool :=
  isDecDigitChar c || (decide ('a' ≤ c) && decide (c ≤ 'z')) ||
    (decide ('A' ≤ c) && decide (c ≤ 'Z'))

/-- Modelled from the spec words: a taskId of the form
`task-<digits>-<4 alnum>` (nonempty digit run, then a dash, then exactly
four alphanumeric characters). -/
def specTaskIdFormat (s : String) : Bool :=
  match s.data with
  | 't' :: 'a' :: 's' :: 'k' :: '-' :: rest =>
    let ds := rest.takeWhile isDecDigitChar
    let rest2 := rest.drop ds.length
    (!ds.isEmpty) &&
      (match rest2 with
       | '-' :: suf => decide (suf.length = 4) && suf.all isAlnumChar
       | _ => false)
  | _ => false

/-- The format the generator actually guarantees:
`task-<digits>-<suffix>` where the suffix has at most four alphanumeric
characters (it is shorter whenever the base-36 rendering of the random
draw has fewer than four fraction digits). -/
def relaxedTaskIdFormat (s : String) : Bool :=
  match s.data with
  | 't' :: 'a' :: 's' :: 'k' :: '-' :: rest =>
    let ds := rest.takeWhile isDecDigitChar
    let rest2 := rest.drop ds.length
    (!ds.isEmpty) &&
      (match rest2 with
       | '-' :: suf => decide (suf.length ≤ 4) && suf.all isAlnumChar
       | _ => false)
  | _ => false

/-- Numeric value of a decimal digit character. -/
def digVal (c : Char) : Nat := c.toNat - 48

/-- The number denoted by a list of decimal digit characters. -/
def decValue (cs : List Char) : Nat :=
  cs.foldl (fun a c => 10 * a + digVal c) 0

/- ------------------------------------------------------------------
Helper lemmas about the task map.
------------------------------------------------------------------ -/

theorem mapGet_mapDelete_self (m : TaskMap) (key : String) :
    mapGet (mapDelete m key) key = none := by
  induction m with
  | nil => rfl
  | cons kv rest ih =>
    obtain ⟨k1, w⟩ := kv
    by_cases h : k1 = key
    · simp [mapDelete, h, ih]
    · simp [mapDelete, mapGet, h, ih]

theorem mapGet_mapSet_self (m : TaskMap) (key : String) (v : PendingTask) :
    mapGet (mapSet m key v) key = some v := by
  induction m with
  | nil => simp [mapSet, mapGet]
  | cons kv rest ih =>
    obtain ⟨k1, w⟩ := kv
    by_cases h : k1 = key
    · simp [mapSet, mapGet, h]
    · simp [mapSet, mapGet, h, ih]

theorem mapGet_mapSet_ne (m : TaskMap) (key k : String) (v : PendingTask)
    (hne : k ≠ key) : mapGet (mapSet m key v) k = mapGet m k := by
  have hkey : ¬(key = k) := fun h => hne h.symm
  induction m with
  | nil => simp [mapSet, mapGet, hkey]
  | cons kv rest ih =>
    obtain ⟨k1, w⟩ := kv
    by_cases h : k1 = key
    · subst h
      simp [mapSet, mapGet, hkey]
    · simp only [mapSet, if_neg h, mapGet]
      by_cases h2 : k1 = k
      · simp [h2]
      · simp [h2, ih]

theorem length_mapSet_of_not_mem (m : TaskMap) (key : String) (v : PendingTask)
    (h : mapGet m key = none) : (mapSet m key v).length = m.length + 1 := by
  induction m with
  | nil => rfl
  | cons kv rest ih =>
    obtain ⟨k1, w⟩ := kv
    simp only [mapGet] at h
    by_cases hk : k1 = key
    · simp [hk] at h
    · simp only [mapSet, if_neg hk, List.length_cons]
      rw [ih (by simpa [hk] using h)]

/- ------------------------------------------------------------------
Helper lemmas about decimal rendering and taskId shape.
------------------------------------------------------------------ -/

theorem digVal_decDigit (d : Nat) (h : d < 10) : digVal (decDigit d) = d := by
  interval_cases d <;> rfl

theorem isDecDigitChar_decDigit (d : Nat) : isDecDigitChar (decDigit d) = true := by
  unfold decDigit
  split <;> rfl

theorem isDecDigitChar_ne_dash {c : Char} (h : isDecDigitChar c = true) : c ≠ '-' := by
  intro he
  rw [he] at h
  exact absurd h (by decide)

theorem natToDecListAux_ne_nil (fuel n : Nat) (h : 0 < fuel) :
    natToDecListAux fuel n ≠ [] := by
  match fuel with
  | 0 => omega
  | fuel + 1 =>
    rw [natToDecListAux]
    by_cases h10 : n < 10
    · simp [h10]
    · simp [h10]

theorem natToDecListAux_digits (fuel n : Nat) :
    ∀ c ∈ natToDecListAux fuel n, isDecDigitChar c = true := by
  induction fuel generalizing n with
  | zero => intro c hc; simp [natToDecListAux] at hc
  | succ fuel ih =>
    intro c hc
    rw [natToDecListAux] at hc
    by_cases h10 : n < 10
    · rw [if_pos h10] at hc
      simp at hc
      subst hc
      exact isDecDigitChar_decDigit n
    · rw [if_neg h10] at hc
      rcases List.mem_append.mp hc with h1 | h2
      · exact ih (n / 10) c h1
      · simp at h2
        subst h2
        exact isDecDigitChar_decDigit (n % 10)

theorem decValue_natToDecListAux (fuel : Nat) :
    ∀ n : Nat, n < fuel → decValue (natToDecListAux fuel n) = n := by
  induction fuel with
  | zero => omega
  | succ fuel ih =>
    intro n hn
    rw [natToDecListAux]
    by_cases h10 : n < 10
    · rw [if_pos h10]
      simp [decValue, digVal_decDigit n h10]
    · rw [if_neg h10]
      rw [decValue, List.foldl_append]
      simp only [List.foldl_cons, List.foldl_nil]
      have hdiv : n / 10 < n := Nat.div_lt_self (by omega) (by omega)
      have h1 := ih (n / 10) (by omega)
      rw [decValue] at h1
      rw [h1, digVal_decDigit _ (Nat.mod_lt _ (by omega))]
      omega

theorem decValue_natToDecList (n : Nat) : decValue (natToDecList n) = n :=
  decValue_natToDecListAux (n + 1) n (by omega)

theorem natToDecList_inj {a b : Nat} (h : natToDecList a = natToDecList b) : a = b := by
  have := congrArg decValue h
  rwa [decValue_natToDecList, decValue_natToDecList] at this

theorem natToDecList_digits (n : Nat) :
    ∀ c ∈ natToDecList n, isDecDigitChar c = true :=
  natToDecListAux_digits (n + 1) n

theorem natToDecList_ne_nil (n : Nat) : natToDecList n ≠ [] :=
  natToDecListAux_ne_nil (n + 1) n (by omega)

theorem append_dash_inj :
    ∀ (t1 t2 s1 s2 : List Char), (∀ c ∈ t1, c ≠ '-') → (∀ c ∈ t2, c ≠ '-') →
      t1 ++ '-' :: s1 = t2 ++ '-' :: s2 → t1 = t2 ∧ s1 = s2 := by
  intro t1
  induction t1 with
  | nil =>
    intro t2 s1 s2 _ h2 heq
    cases t2 with
    | nil => simpa using heq
    | cons d t2' =>
      simp only [List.nil_append, List.cons_append, List.cons.injEq] at heq
      exact absurd heq.1.symm (h2 d (by simp))
  | cons c t1' ih =>
    intro t2 s1 s2 h1 h2 heq
    cases t2 with
    | nil =>
      simp only [List.nil_append, List.cons_append, List.cons.injEq] at heq
      exact absurd heq.1 (h1 c (by simp))
    | cons d t2' =>
      simp only [List.cons_append, List.cons.injEq] at heq
      obtain ⟨rfl, heq'⟩ := heq
      have hrec := ih t2' s1 s2 (fun x hx => h1 x (by simp [hx]))
        (fun x hx => h2 x (by simp [hx])) heq'
      exact ⟨by rw [hrec.1], hrec.2⟩

theorem string_data_append (a b : String) : (a ++ b).data = a.data ++ b.data := by
  cases a
  cases b
  rfl

theorem genTaskId_data (now : Nat) (r : String) :
    (genTaskId now r).data =
      't' :: 'a' :: 's' :: 'k' :: '-' :: (natToDecList now ++ '-' :: (randSuffix r).data) := by
  show (("task-" ++ natToDec now ++ "-") ++ randSuffix r).data = _
  rw [string_data_append, string_data_append, string_data_append]
  show ['t', 'a', 's', 'k', '-'] ++ (natToDecList now ++ ['-']) ++ (randSuffix r).data = _
  simp

theorem takeWhile_append_of_all (p : Char → Bool) :
    ∀ (xs ys : List Char), (∀ c ∈ xs, p c = true) →
      (xs ++ ys).takeWhile p = xs ++ ys.takeWhile p := by
  intro xs
  induction xs with
  | nil => intro ys _; rfl
  | cons c xs' ih =>
    intro ys hall
    simp only [List.cons_append, List.takeWhile_cons]
    rw [hall c (by simp)]
    simp only [ite_true]
    rw [ih ys (fun x hx => hall x (by simp [hx]))]

theorem length_take_le' (n : Nat) (l : List Char) : (l.take n).length ≤ n := by
  simp [List.length_take]

theorem string_ext {a b : String} (h : a.data = b.data) : a = b := by
  cases a
  cases b
  simp only at h
  rw [h]

theorem randSuffix_data (r : String) :
    (randSuffix r).data = (r.data.drop 2).take 4 := rfl

theorem relaxedTaskIdFormat_genTaskId (now : Nat) (r : String)
    (h : (randSuffix r).data.all isAlnumChar = true) :
    relaxedTaskIdFormat (genTaskId now r) = true := by
  unfold relaxedTaskIdFormat
  rw [genTaskId_data]
  have htw : (natToDecList now ++ '-' :: (randSuffix r).data).takeWhile isDecDigitChar
      = natToDecList now := by
    rw [takeWhile_append_of_all isDecDigitChar _ _ (natToDecList_digits now)]
    simp [List.takeWhile_cons, isDecDigitChar]
  have hdrop : (natToDecList now ++ '-' :: (randSuffix r).data).drop (natToDecList now).length
      = '-' :: (randSuffix r).data := by
    simp
  simp only [htw, hdrop]
  have hne := natToDecList_ne_nil now
  have hlen : (randSuffix r).data.length ≤ 4 := by
    rw [randSuffix_data]
    exact length_take_le' 4 _
  have hlen' : (randSuffix r).length ≤ 4 := hlen
  simp [hne, hlen, hlen', h, List.isEmpty_iff]

theorem genTaskId_ne_of_ne (n1 n2 : Nat) (r1 r2 : String) (hne : n1 ≠ n2) :
    genTaskId n1 r1 ≠ genTaskId n2 r2 := by
  intro he
  have hd := congrArg String.data he
  rw [genTaskId_data, genTaskId_data] at hd
  simp only [List.cons.injEq, true_and] at hd
  have hsplit := append_dash_inj (natToDecList n1) (natToDecList n2)
    (randSuffix r1).data (randSuffix r2).data
    (fun c hc => isDecDigitChar_ne_dash (natToDecList_digits n1 c hc))
    (fun c hc => isDecDigitChar_ne_dash (natToDecList_digits n2 c hc)) hd
  exact hne (natToDecList_inj hsplit.1)

theorem genTaskId_eq_iff_same_now (n : Nat) (r1 r2 : String) :
    genTaskId n r1 = genTaskId n r2 ↔ randSuffix r1 = randSuffix r2 := by
  constructor
  · intro he
    have hd := congrArg String.data he
    rw [genTaskId_data, genTaskId_data] at hd
    simp only [List.cons.injEq, true_and] at hd
    have hsplit := List.append_cancel_left hd
    have : (randSuffix r1).data = (randSuffix r2).data := by
      simpa using hsplit
    exact string_ext this
  · intro he
    unfold genTaskId
    rw [he]

/-- The polling loop on a task that stays PENDING: every iteration
queries the channel, observes a non-APPROVED success, leaves the state
alone, and the loop finally returns the last PENDING observation. -/
theorem statusCheckLoop_pending
    (ck : Nat → String → Except ErrObj String)
    (ds : Nat → String → JValue → Except ErrObj CallResult)
    (taskId oob : String) (task : PendingTask)
    (hoob : oobTruthy task.hitlOobCode = some oob)
    (hckAll : ∀ j, ∃ s, ck j oob = Except.ok s ∧ s ≠ "APPROVED") :
    ∀ (fuel i : Nat) (tasks : TaskMap) (last : Option CallResult)
      (dcs : List (String × JValue)) (cqs : List String) (iters : Nat),
      mapGet tasks taskId = some task →
      statusCheckLoop ck ds taskId (fuel + 1) i tasks last dcs cqs iters =
        ⟨some (pendingStatusResult taskId task.toolName), tasks, dcs,
         cqs ++ List.replicate (fuel + 1) oob, iters + (fuel + 1)⟩ := by
  intro fuel
  induction fuel with
  | zero =>
    intro i tasks last dcs cqs iters hget
    obtain ⟨s, hs, hsne⟩ := hckAll i
    have hhandle : handleTaskStatusCheck tasks (ck i) (ds i) taskId =
        ⟨pendingStatusResult taskId task.toolName, tasks, [], [oob]⟩ := by
      simp [handleTaskStatusCheck, hget, hoob, hs, hsne]
    simp [statusCheckLoop, hhandle, scTruthyNonPending, pendingStatusResult]
  | succ fuel ih =>
    intro i tasks last dcs cqs iters hget
    obtain ⟨s, hs, hsne⟩ := hckAll i
    have hhandle : handleTaskStatusCheck tasks (ck i) (ds i) taskId =
        ⟨pendingStatusResult taskId task.toolName, tasks, [], [oob]⟩ := by
      simp [handleTaskStatusCheck, hget, hoob, hs, hsne]
    rw [statusCheckLoop, hhandle]
    have hguard : scTruthyNonPending (pendingStatusResult taskId task.toolName) = false := by
      simp [scTruthyNonPending, pendingStatusResult]
    simp only [hguard, Bool.false_eq_true, if_false]
    rw [ih (i + 1) tasks (some (pendingStatusResult taskId task.toolName))
      (dcs ++ []) (cqs ++ [oob]) (iters + 1) hget]
    simp [List.replicate_succ]
    omega

/- ------------------------------------------------------------------
Claim theorems.
------------------------------------------------------------------ -/

/-- C1: when the channel reports APPROVED for a live task, the status
check makes exactly one downstream call with the captured toolName and
arguments, returns the downstream result merged with a COMPLETED
structuredContent naming the tool, removes the task, a subsequent check
returns not-found and makes no downstream call, and no status check for
this task makes a downstream call unless its own channel query returned
APPROVED. -/
theorem c1_approved_task_flow (tasks : TaskMap) (taskId oob : String)
    (task : PendingTask) (r : CallResult)
    (ck : String → Except ErrObj String)
    (ds : String → JValue → Except ErrObj CallResult)
    (hget : mapGet tasks taskId = some task)
    (hoob : oobTruthy task.hitlOobCode = some oob)
    (hck : ck oob = Except.ok "APPROVED")
    (hds : ds task.toolName task.toolArgs = Except.ok r) :
    handleTaskStatusCheck tasks ck ds taskId =
      ⟨completedResult r task.toolName, mapDelete tasks taskId,
       [(task.toolName, task.toolArgs)], [oob]⟩ ∧
    (completedResult r task.toolName).structuredContent =
      some { status := some "COMPLETED", tool := some task.toolName } ∧
    mapGet (mapDelete tasks taskId) taskId = none ∧
    (∀ (ck2 : String → Except ErrObj String)
       (ds2 : String → JValue → Except ErrObj CallResult),
      handleTaskStatusCheck (mapDelete tasks taskId) ck2 ds2 taskId =
        ⟨notFoundResult taskId, mapDelete tasks taskId, [], []⟩) ∧
    (∀ (ck2 : String → Except ErrObj String)
       (ds2 : String → JValue → Except ErrObj CallResult),
      ck2 oob ≠ Except.ok "APPROVED" →
      (handleTaskStatusCheck tasks ck2 ds2 taskId).downstreamCalls = []) := by
  refine ⟨?_, rfl, mapGet_mapDelete_self tasks taskId, ?_, ?_⟩
  · simp [handleTaskStatusCheck, hget, hoob, hck, hds]
  · intro ck2 ds2
    simp [handleTaskStatusCheck, mapGet_mapDelete_self tasks taskId]
  · intro ck2 ds2 hne
    simp only [handleTaskStatusCheck, hget, hoob]
    cases h2 : ck2 oob with
    | error e => simp
    | ok s =>
      by_cases hs : s = "APPROVED"
      · subst hs
        exact absurd h2 hne
      · simp [hs]

/-- C1 witness at a concrete live task and oracles. -/
theorem c1_witness :
    handleTaskStatusCheck
        [("task-5-wxyz", ⟨"add_todos", JValue.jobj [("title", JValue.jstr "x")],
          TaskStatus.PENDING, some "code7"⟩)]
        (fun _ => Except.ok "APPROVED")
        (fun _ _ => Except.ok { content := [⟨"text", "todo added"⟩] }) "task-5-wxyz" =
      ⟨completedResult { content := [⟨"text", "todo added"⟩] } "add_todos",
       mapDelete [("task-5-wxyz", ⟨"add_todos", JValue.jobj [("title", JValue.jstr "x")],
          TaskStatus.PENDING, some "code7"⟩)] "task-5-wxyz",
       [("add_todos", JValue.jobj [("title", JValue.jstr "x")])], ["code7"]⟩ ∧
    (completedResult { content := [⟨"text", "todo added"⟩] } "add_todos").structuredContent =
      some { status := some "COMPLETED", tool := some "add_todos" } ∧
    mapGet (mapDelete [("task-5-wxyz", ⟨"add_todos", JValue.jobj [("title", JValue.jstr "x")],
        TaskStatus.PENDING, some "code7"⟩)] "task-5-wxyz") "task-5-wxyz" = none := by
  have T := c1_approved_task_flow
    [("task-5-wxyz", ⟨"add_todos", JValue.jobj [("title", JValue.jstr "x")],
      TaskStatus.PENDING, some "code7"⟩)]
    "task-5-wxyz" "code7"
    ⟨"add_todos", JValue.jobj [("title", JValue.jstr "x")], TaskStatus.PENDING, some "code7"⟩
    { content := [⟨"text", "todo added"⟩] }
    (fun _ => Except.ok "APPROVED")
    (fun _ _ => Except.ok { content := [⟨"text", "todo added"⟩] })
    rfl rfl rfl rfl
  exact ⟨T.1, T.2.1, T.2.2.1⟩

/-- C2: a high-risk, non-blocked invocation whose approval request the
channel accepts returns a PENDING_APPROVAL_POLL receipt carrying the
fresh taskId, makes no downstream call, and adds exactly one new PENDING
task storing the toolName and arguments verbatim. -/
theorem c2_high_risk_pending (accessToken serverName : String) (tasks : TaskMap)
    (now : Nat) (randRepr : String) (oobCode : String)
    (downstreamCall : String → JValue → Except ErrObj CallResult)
    (toolName : String) (toolargs : JValue) (progressToken : Option JValue)
    (config : MCPServerConfig)
    (hcfg : MCPServerMap accessToken serverName = some config)
    (hnb : toolName ∉ config.BlockedTools)
    (hhr : toolName ∈ config.HighRiskTools)
    (hfresh : mapGet tasks (genTaskId now randRepr) = none) :
    (callTool accessToken serverName tasks now randRepr (Except.ok oobCode)
        downstreamCall toolName toolargs progressToken).result =
      some (pendingReceiptResult toolName (genTaskId now randRepr)) ∧
    (pendingStructuredContent (genTaskId now randRepr)).status =
      some "PENDING_APPROVAL_POLL" ∧
    (pendingStructuredContent (genTaskId now randRepr)).taskId =
      some (genTaskId now randRepr) ∧
    (callTool accessToken serverName tasks now randRepr (Except.ok oobCode)
        downstreamCall toolName toolargs progressToken).downstreamCalls = [] ∧
    (callTool accessToken serverName tasks now randRepr (Except.ok oobCode)
        downstreamCall toolName toolargs progressToken).tasks =
      mapSet tasks (genTaskId now randRepr)
        ⟨toolName, toolargs, TaskStatus.PENDING, some oobCode⟩ ∧
    mapGet (callTool accessToken serverName tasks now randRepr (Except.ok oobCode)
        downstreamCall toolName toolargs progressToken).tasks (genTaskId now randRepr) =
      some ⟨toolName, toolargs, TaskStatus.PENDING, some oobCode⟩ ∧
    (callTool accessToken serverName tasks now randRepr (Except.ok oobCode)
        downstreamCall toolName toolargs progressToken).tasks.length = tasks.length + 1 ∧
    (callTool accessToken serverName tasks now randRepr (Except.ok oobCode)
        downstreamCall toolName toolargs progressToken).approvalRequests = 1 ∧
    (∀ k, k ≠ genTaskId now randRepr →
      mapGet (callTool accessToken serverName tasks now randRepr (Except.ok oobCode)
        downstreamCall toolName toolargs progressToken).tasks k = mapGet tasks k) := by
  refine ⟨by simp [callTool, hcfg, hnb, hhr], rfl, rfl,
    by simp [callTool, hcfg, hnb, hhr],
    by simp [callTool, hcfg, hnb, hhr], ?_, ?_, by simp [callTool, hcfg, hnb, hhr], ?_⟩
  · simp [callTool, hcfg, hnb, hhr, mapGet_mapSet_self]
  · simp [callTool, hcfg, hnb, hhr, length_mapSet_of_not_mem tasks _ _ hfresh]
  · intro k hk
    simp [callTool, hcfg, hnb, hhr, mapGet_mapSet_ne tasks _ k _ hk]

/-- C2 witness at the concrete configuration and a fresh task map. -/
theorem c2_witness :
    (callTool "tok" "todo-mcp-server" [] 5 "0.wxyz" (Except.ok "code7")
        (fun _ _ => Except.ok {}) "add_todos" (JValue.jobj [("title", JValue.jstr "x")])
        none).result =
      some (pendingReceiptResult "add_todos" (genTaskId 5 "0.wxyz")) ∧
    (pendingStructuredContent (genTaskId 5 "0.wxyz")).status =
      some "PENDING_APPROVAL_POLL" ∧
    (pendingStructuredContent (genTaskId 5 "0.wxyz")).taskId =
      some (genTaskId 5 "0.wxyz") ∧
    (callTool "tok" "todo-mcp-server" [] 5 "0.wxyz" (Except.ok "code7")
        (fun _ _ => Except.ok {}) "add_todos" (JValue.jobj [("title", JValue.jstr "x")])
        none).downstreamCalls = [] ∧
    (callTool "tok" "todo-mcp-server" [] 5 "0.wxyz" (Except.ok "code7")
        (fun _ _ => Except.ok {}) "add_todos" (JValue.jobj [("title", JValue.jstr "x")])
        none).tasks =
      mapSet [] (genTaskId 5 "0.wxyz")
        ⟨"add_todos", JValue.jobj [("title", JValue.jstr "x")], TaskStatus.PENDING, some "code7"⟩ ∧
    mapGet (callTool "tok" "todo-mcp-server" [] 5 "0.wxyz" (Except.ok "code7")
        (fun _ _ => Except.ok {}) "add_todos" (JValue.jobj [("title", JValue.jstr "x")])
        none).tasks (genTaskId 5 "0.wxyz") =
      some ⟨"add_todos", JValue.jobj [("title", JValue.jstr "x")], TaskStatus.PENDING, some "code7"⟩ ∧
    (callTool "tok" "todo-mcp-server" [] 5 "0.wxyz" (Except.ok "code7")
        (fun _ _ => Except.ok {}) "add_todos" (JValue.jobj [("title", JValue.jstr "x")])
        none).tasks.length = 0 + 1 ∧
    (callTool "tok" "todo-mcp-server" [] 5 "0.wxyz" (Except.ok "code7")
        (fun _ _ => Except.ok {}) "add_todos" (JValue.jobj [("title", JValue.jstr "x")])
        none).approvalRequests = 1 := by
  have T := c2_high_risk_pending "tok" "todo-mcp-server" [] 5 "0.wxyz" "code7"
    (fun _ _ => Except.ok {}) "add_todos" (JValue.jobj [("title", JValue.jstr "x")]) none
    _ rfl (by decide) (by decide) rfl
  exact ⟨T.1, T.2.1, T.2.2.1, T.2.2.2.1, T.2.2.2.2.1, T.2.2.2.2.2.1, T.2.2.2.2.2.2.1,
    T.2.2.2.2.2.2.2.1⟩

/-- C3: when the channel query for a live task throws (denied, expired,
or a network failure), the status check returns an isError payload
carrying the failure detail, removes the task, makes no downstream call,
and a subsequent check returns not-found. -/
theorem c3_denial_flow (tasks : TaskMap) (taskId oob : String)
    (task : PendingTask) (e : ErrObj)
    (ck : String → Except ErrObj String)
    (ds : String → JValue → Except ErrObj CallResult)
    (hget : mapGet tasks taskId = some task)
    (hoob : oobTruthy task.hitlOobCode = some oob)
    (hck : ck oob = Except.error e) :
    handleTaskStatusCheck tasks ck ds taskId =
      ⟨deniedResult taskId e, mapDelete tasks taskId, [], [oob]⟩ ∧
    (deniedResult taskId e).isError = some true ∧
    mapGet (mapDelete tasks taskId) taskId = none ∧
    (∀ (ck2 : String → Except ErrObj String)
       (ds2 : String → JValue → Except ErrObj CallResult),
      handleTaskStatusCheck (mapDelete tasks taskId) ck2 ds2 taskId =
        ⟨notFoundResult taskId, mapDelete tasks taskId, [], []⟩) := by
  refine ⟨?_, rfl, mapGet_mapDelete_self tasks taskId, ?_⟩
  · simp [handleTaskStatusCheck, hget, hoob, hck]
  · intro ck2 ds2
    simp [handleTaskStatusCheck, mapGet_mapDelete_self tasks taskId]

/-- C3 witness at a concrete denied task. -/
theorem c3_witness :
    handleTaskStatusCheck
        [("task-5-wxyz", ⟨"add_todos", JValue.jnull, TaskStatus.PENDING, some "code7"⟩)]
        (fun _ => Except.error { error := some "access_denied", message := "denied" })
        (fun _ _ => Except.ok {}) "task-5-wxyz" =
      ⟨deniedResult "task-5-wxyz" { error := some "access_denied", message := "denied" },
       mapDelete [("task-5-wxyz", ⟨"add_todos", JValue.jnull, TaskStatus.PENDING, some "code7"⟩)]
         "task-5-wxyz", [], ["code7"]⟩ ∧
    (deniedResult "task-5-wxyz" { error := some "access_denied", message := "denied" }).isError =
      some true ∧
    mapGet (mapDelete [("task-5-wxyz", ⟨"add_todos", JValue.jnull, TaskStatus.PENDING, some "code7"⟩)]
      "task-5-wxyz") "task-5-wxyz" = none := by
  have T := c3_denial_flow
    [("task-5-wxyz", ⟨"add_todos", JValue.jnull, TaskStatus.PENDING, some "code7"⟩)]
    "task-5-wxyz" "code7"
    ⟨"add_todos", JValue.jnull, TaskStatus.PENDING, some "code7"⟩
    { error := some "access_denied", message := "denied" }
    (fun _ => Except.error { error := some "access_denied", message := "denied" })
    (fun _ _ => Except.ok {}) rfl rfl rfl
  exact ⟨T.1, T.2.1, T.2.2.1⟩

/-- C4: invoking a tool in the configured BlockedTools set returns an
isError payload, creates no approval task, makes no downstream call, and
sends no approval request to the channel; the blocklist check runs
before the high-risk check, so this holds even for a name in both
sets. -/
theorem c4_blocked_tool (accessToken serverName : String) (tasks : TaskMap)
    (now : Nat) (randRepr : String) (sendApprovalOutcome : Except ErrObj String)
    (downstreamCall : String → JValue → Except ErrObj CallResult)
    (toolName : String) (toolargs : JValue) (progressToken : Option JValue)
    (config : MCPServerConfig)
    (hcfg : MCPServerMap accessToken serverName = some config)
    (hblk : toolName ∈ config.BlockedTools) :
    callTool accessToken serverName tasks now randRepr sendApprovalOutcome
        downstreamCall toolName toolargs progressToken =
      ⟨some { content := [⟨"text", "❌ Access to " ++ toolName ++ " has been blocked."⟩],
              isError := some true },
       tasks, [], 0, []⟩ := by
  simp [callTool, hcfg, hblk]

/-- C4 witness at the concrete configuration's blocked tool. -/
theorem c4_witness :
    callTool "tok" "todo-mcp-server" [] 1 "0.abcd" (Except.ok "oob")
        (fun _ _ => Except.ok {}) "welcome_to_okta" JValue.jnull none =
      ⟨some { content := [⟨"text", "❌ Access to " ++ "welcome_to_okta" ++ " has been blocked."⟩],
              isError := some true },
       [], [], 0, []⟩ :=
  c4_blocked_tool "tok" "todo-mcp-server" [] 1 "0.abcd" (Except.ok "oob")
    (fun _ _ => Except.ok {}) "welcome_to_okta" JValue.jnull none _ rfl (by decide)

/-- C6: a status check for a taskId absent from the live task set
returns the not-found payload, never queries the approval channel,
leaves the task set unchanged, and makes no downstream call. -/
theorem c6_unknown_task (tasks : TaskMap) (taskId : String)
    (ck : String → Except ErrObj String)
    (ds : String → JValue → Except ErrObj CallResult)
    (h : mapGet tasks taskId = none) :
    handleTaskStatusCheck tasks ck ds taskId =
      ⟨notFoundResult taskId, tasks, [], []⟩ := by
  simp [handleTaskStatusCheck, h]

/-- C6 witness: an unknown id against a nonempty task set. -/
theorem c6_witness :
    handleTaskStatusCheck
        [("task-9-zzzz", ⟨"add_todos", JValue.jnull, TaskStatus.PENDING, some "oob"⟩)]
        (fun _ => Except.ok "APPROVED") (fun _ _ => Except.ok {}) "task-1-abcd" =
      ⟨notFoundResult "task-1-abcd",
       [("task-9-zzzz", ⟨"add_todos", JValue.jnull, TaskStatus.PENDING, some "oob"⟩)],
       [], []⟩ :=
  c6_unknown_task
    [("task-9-zzzz", ⟨"add_todos", JValue.jnull, TaskStatus.PENDING, some "oob"⟩)]
    "task-1-abcd" (fun _ => Except.ok "APPROVED") (fun _ _ => Except.ok {}) rfl

/-- C10: a check_task_status request with absent arguments or a
non-string taskId returns the error-text payload immediately: zero loop
iterations, no channel query, no downstream contact, task set unchanged,
and the payload carries no isError flag and no structuredContent. -/
theorem c10_invalid_args (fuel : Nat) (tasks : TaskMap)
    (ck : Nat → String → Except ErrObj String)
    (ds : Nat → String → JValue → Except ErrObj CallResult)
    (args : Option JValue) (h : getTaskIdArg args = none) :
    checkTaskStatusHandler fuel tasks ck ds args =
      ⟨some argErrorResult, tasks, [], [], 0⟩ ∧
    argErrorResult.isError = none ∧
    argErrorResult.structuredContent = none := by
  refine ⟨?_, rfl, rfl⟩
  simp [checkTaskStatusHandler, h]

/-- Counterexample to C5 as stated: the loop does not return immediately
on every non-PENDING inner result.  Here the first inner query resolves
a denial (an isError payload, clearly not PENDING), yet the loop keeps
polling — with window for two checks it runs two iterations, and the
caller finally receives the not-found payload of the second iteration,
which carries no isError flag, instead of the denial payload. -/
theorem c5_counterexample :
    (statusCheckLoop
        (fun _ _ => Except.error { error := some "access_denied", message := "denied" })
        (fun _ _ _ => Except.ok {}) "t1" 2 0
        [("t1", ⟨"add_todos", JValue.jstr "x", TaskStatus.PENDING, some "oob1"⟩)]
        none [] [] 0).iterations = 2 ∧
    (statusCheckLoop
        (fun _ _ => Except.error { error := some "access_denied", message := "denied" })
        (fun _ _ _ => Except.ok {}) "t1" 2 0
        [("t1", ⟨"add_todos", JValue.jstr "x", TaskStatus.PENDING, some "oob1"⟩)]
        none [] [] 0).result = some (notFoundResult "t1") ∧
    (handleTaskStatusCheck
        [("t1", ⟨"add_todos", JValue.jstr "x", TaskStatus.PENDING, some "oob1"⟩)]
        (fun _ => Except.error { error := some "access_denied", message := "denied" })
        (fun _ _ => Except.ok {}) "t1").result.isError = some true ∧
    (notFoundResult "t1").isError = none :=
  ⟨rfl, rfl, rfl, rfl⟩

/-- C5 (amended): the loop returns immediately only after an inner query
whose payload carries a truthy structuredContent.status other than
PENDING (the COMPLETED payload; the not-found and denied payloads carry
no structuredContent and do not short-circuit).  If every query keeps
reporting PENDING until the window elapses, the handler returns the last
PENDING observation instead of waiting further. -/
theorem c5_poll_loop_amended :
    (∀ (ck : Nat → String → Except ErrObj String)
       (ds : Nat → String → JValue → Except ErrObj CallResult)
       (taskId : String) (fuel : Nat) (tasks : TaskMap),
      scTruthyNonPending (handleTaskStatusCheck tasks (ck 0) (ds 0) taskId).result = true →
      statusCheckLoop ck ds taskId (fuel + 1) 0 tasks none [] [] 0 =
        ⟨some (handleTaskStatusCheck tasks (ck 0) (ds 0) taskId).result,
         (handleTaskStatusCheck tasks (ck 0) (ds 0) taskId).tasks,
         (handleTaskStatusCheck tasks (ck 0) (ds 0) taskId).downstreamCalls,
         (handleTaskStatusCheck tasks (ck 0) (ds 0) taskId).channelQueries, 1⟩) ∧
    (∀ (ck : Nat → String → Except ErrObj String)
       (ds : Nat → String → JValue → Except ErrObj CallResult)
       (taskId oob : String) (task : PendingTask) (fuel : Nat) (tasks : TaskMap),
      mapGet tasks taskId = some task →
      oobTruthy task.hitlOobCode = some oob →
      (∀ j, ∃ s, ck j oob = Except.ok s ∧ s ≠ "APPROVED") →
      statusCheckLoop ck ds taskId (fuel + 1) 0 tasks none [] [] 0 =
        ⟨some (pendingStatusResult taskId task.toolName), tasks, [],
         List.replicate (fuel + 1) oob, fuel + 1⟩) := by
  constructor
  · intro ck ds taskId fuel tasks hg
    rw [statusCheckLoop]
    simp only [hg, if_true]
    simp
  · intro ck ds taskId oob task fuel tasks hget hoob hckAll
    have h := statusCheckLoop_pending ck ds taskId oob task hoob hckAll fuel 0 tasks
      none [] [] 0 hget
    simpa using h

/-- C5 witness: the amended statement applied to a concrete approval
(immediate return after one iteration) and to a concrete task that stays
pending for the whole window. -/
theorem c5_witness :
    statusCheckLoop (fun _ _ => Except.ok "APPROVED") (fun _ _ _ => Except.ok {}) "t1" (2 + 1) 0
        [("t1", ⟨"add_todos", JValue.jnull, TaskStatus.PENDING, some "ob"⟩)] none [] [] 0 =
      ⟨some (handleTaskStatusCheck
          [("t1", ⟨"add_todos", JValue.jnull, TaskStatus.PENDING, some "ob"⟩)]
          (fun _ => Except.ok "APPROVED") (fun _ _ => Except.ok {}) "t1").result,
       (handleTaskStatusCheck
          [("t1", ⟨"add_todos", JValue.jnull, TaskStatus.PENDING, some "ob"⟩)]
          (fun _ => Except.ok "APPROVED") (fun _ _ => Except.ok {}) "t1").tasks,
       (handleTaskStatusCheck
          [("t1", ⟨"add_todos", JValue.jnull, TaskStatus.PENDING, some "ob"⟩)]
          (fun _ => Except.ok "APPROVED") (fun _ _ => Except.ok {}) "t1").downstreamCalls,
       (handleTaskStatusCheck
          [("t1", ⟨"add_todos", JValue.jnull, TaskStatus.PENDING, some "ob"⟩)]
          (fun _ => Except.ok "APPROVED") (fun _ _ => Except.ok {}) "t1").channelQueries, 1⟩ ∧
    statusCheckLoop (fun _ _ => Except.ok "WAITING") (fun _ _ _ => Except.ok {}) "t1" (1 + 1) 0
        [("t1", ⟨"add_todos", JValue.jnull, TaskStatus.PENDING, some "ob"⟩)] none [] [] 0 =
      ⟨some (pendingStatusResult "t1" "add_todos"),
       [("t1", ⟨"add_todos", JValue.jnull, TaskStatus.PENDING, some "ob"⟩)], [],
       List.replicate (1 + 1) "ob", 1 + 1⟩ := by
  constructor
  · exact c5_poll_loop_amended.1 (fun _ _ => Except.ok "APPROVED") (fun _ _ _ => Except.ok {})
      "t1" 2 [("t1", ⟨"add_todos", JValue.jnull, TaskStatus.PENDING, some "ob"⟩)] rfl
  · exact c5_poll_loop_amended.2 (fun _ _ => Except.ok "WAITING") (fun _ _ _ => Except.ok {})
      "t1" "ob" ⟨"add_todos", JValue.jnull, TaskStatus.PENDING, some "ob"⟩ 1
      [("t1", ⟨"add_todos", JValue.jnull, TaskStatus.PENDING, some "ob"⟩)] rfl rfl
      (fun _ => ⟨"WAITING", rfl, by decide⟩)

/-- C10 witness: a non-string taskId argument. -/
theorem c10_witness :
    checkTaskStatusHandler 2
        [("task-9-zzzz", ⟨"add_todos", JValue.jnull, TaskStatus.PENDING, some "oob"⟩)]
        (fun _ _ => Except.ok "APPROVED") (fun _ _ _ => Except.ok {})
        (some (JValue.jobj [("taskId", JValue.jnum 42)])) =
      ⟨some argErrorResult,
       [("task-9-zzzz", ⟨"add_todos", JValue.jnull, TaskStatus.PENDING, some "oob"⟩)],
       [], [], 0⟩ ∧
    argErrorResult.isError = none ∧
    argErrorResult.structuredContent = none :=
  c10_invalid_args 2
    [("task-9-zzzz", ⟨"add_todos", JValue.jnull, TaskStatus.PENDING, some "oob"⟩)]
    (fun _ _ => Except.ok "APPROVED") (fun _ _ _ => Except.ok {})
    (some (JValue.jobj [("taskId", JValue.jnum 42)])) rfl

/-- Counterexample to C7 as stated: two distinct `Math.random()` draws
observed in the same millisecond produce the same taskId (the suffix
keeps only the first four fraction digits), and a draw of exactly 0.5
renders in base 36 as 0.i, giving a one-character suffix whose taskId
does not match task-<digits>-<4 alnum>. -/
theorem c7_counterexample :
    genTaskId 1700000000123 "0.abcd5xyz" = genTaskId 1700000000123 "0.abcdqrs" ∧
    "0.abcd5xyz" ≠ ("0.abcdqrs" : String) ∧
    genTaskId 1700000000123 "0.i" = "task-1700000000123-i" ∧
    specTaskIdFormat (genTaskId 1700000000123 "0.i") = false :=
  ⟨rfl, by decide, rfl, by decide⟩

/-- C7 (amended): a generated taskId always has the shape
task-<digits>-<suffix> with an alphanumeric suffix of at most four
characters (possibly fewer); taskIds generated at distinct millisecond
timestamps are always distinct; but within one millisecond two taskIds
coincide exactly when the four-character truncations of the two random
draws coincide, so lifetime uniqueness is only probabilistic. -/
theorem c7_taskid_amended :
    (∀ (now : Nat) (r : String), (randSuffix r).data.all isAlnumChar = true →
      relaxedTaskIdFormat (genTaskId now r) = true) ∧
    (∀ (n1 n2 : Nat) (r1 r2 : String), n1 ≠ n2 → genTaskId n1 r1 ≠ genTaskId n2 r2) ∧
    (∀ (n : Nat) (r1 r2 : String),
      genTaskId n r1 = genTaskId n r2 ↔ randSuffix r1 = randSuffix r2) :=
  ⟨relaxedTaskIdFormat_genTaskId, genTaskId_ne_of_ne, genTaskId_eq_iff_same_now⟩

/-- C7 witness: the amended statement at concrete draws. -/
theorem c7_witness :
    relaxedTaskIdFormat (genTaskId 1700000000123 "0.ab9z") = true ∧
    genTaskId 1 "0.aaaa" ≠ genTaskId 2 "0.aaaa" ∧
    (genTaskId 7 "0.abcde" = genTaskId 7 "0.abcdf" ↔
      randSuffix "0.abcde" = randSuffix "0.abcdf") :=
  ⟨c7_taskid_amended.1 1700000000123 "0.ab9z" (by decide),
   c7_taskid_amended.2.1 1 2 "0.aaaa" "0.aaaa" (by decide),
   c7_taskid_amended.2.2 7 "0.abcde" "0.abcdf"⟩

/-- Counterexample to C8 as stated: with a server identifier absent from
the static table, a call-tool request is answered with null (no error
payload at all) and a list-tools request with an empty catalog, even
though the downstream oracle reports a tool — nothing fails the
request. -/
theorem c8_counterexample :
    callTool "tok" "other-server" [] 1 "0.abcd" (Except.ok "oob")
        (fun _ _ => Except.ok {}) "add_todos" JValue.jnull none =
      ⟨none, [], [], 0, []⟩ ∧
    getTools "tok" "other-server"
      (Except.ok [⟨"add_todos", "adds todos", ⟨"object", [], none⟩⟩]) = [] :=
  ⟨rfl, rfl⟩

/-- C8 (amended): when the server identifier is absent from the static
table, a call-tool request returns null with no side effects and a
list-tools request returns the empty catalog; the fatal configuration
error exists only in the startup connection path, not at request
time. -/
theorem c8_unknown_server_amended (accessToken serverName : String) (tasks : TaskMap)
    (now : Nat) (randRepr : String) (sendApprovalOutcome : Except ErrObj String)
    (downstreamCall : String → JValue → Except ErrObj CallResult)
    (toolName : String) (toolargs : JValue) (progressToken : Option JValue)
    (h : MCPServerMap accessToken serverName = none) :
    callTool accessToken serverName tasks now randRepr sendApprovalOutcome
        downstreamCall toolName toolargs progressToken = ⟨none, tasks, [], 0, []⟩ ∧
    (∀ dl, getTools accessToken serverName dl = []) ∧
    initializeDownstreamConnection accessToken serverName =
      Except.error ("Transport config for " ++ serverName ++ " not found.") := by
  refine ⟨by simp [callTool, h], fun dl => by simp [getTools, h],
    by simp [initializeDownstreamConnection, h]⟩

/-- C8 witness: the amended statement at a concrete unknown server. -/
theorem c8_witness :
    callTool "tok" "other-server" [] 1 "0.abcd" (Except.ok "oob")
        (fun _ _ => Except.ok {}) "add_todos" JValue.jnull none =
      ⟨none, [], [], 0, []⟩ ∧
    getTools "tok" "other-server" (Except.error { message := "down" }) = [] ∧
    initializeDownstreamConnection "tok" "other-server" =
      Except.error ("Transport config for " ++ "other-server" ++ " not found.") := by
  have T := c8_unknown_server_amended "tok" "other-server" [] 1 "0.abcd" (Except.ok "oob")
    (fun _ _ => Except.ok {}) "add_todos" JValue.jnull none rfl
  exact ⟨T.1, T.2.1 (Except.error { message := "down" }), T.2.2⟩

/-- Counterexample to C9 as stated: a NORMAL tool call whose downstream
invocation throws is answered with a JS null (modelled as none) — the
failure does not surface as an error result payload. -/
theorem c9_counterexample :
    (callTool "tok" "todo-mcp-server" [] 1 "0.abcd" (Except.ok "oob")
        (fun _ _ => Except.error { message := "ECONNRESET" }) "get_todos" JValue.jnull
        none).result = none ∧
    (callTool "tok" "todo-mcp-server" [] 1 "0.abcd" (Except.ok "oob")
        (fun _ _ => Except.error { message := "ECONNRESET" }) "get_todos" JValue.jnull
        none).downstreamCalls = [("get_todos", JValue.jnull)] :=
  ⟨rfl, rfl⟩

/-- C9 (amended): a NORMAL (neither blocked nor high-risk) invocation is
forwarded downstream exactly once with no retries; a successful
downstream result is returned to the caller unmodified, and a thrown
downstream failure is caught — no exception propagates — but the caller
then receives null rather than an error result payload.  No task is
created and no approval request is sent. -/
theorem c9_normal_tool_amended (accessToken serverName : String) (tasks : TaskMap)
    (now : Nat) (randRepr : String) (sendApprovalOutcome : Except ErrObj String)
    (downstreamCall : String → JValue → Except ErrObj CallResult)
    (toolName : String) (toolargs : JValue) (progressToken : Option JValue)
    (config : MCPServerConfig)
    (hcfg : MCPServerMap accessToken serverName = some config)
    (hnb : toolName ∉ config.BlockedTools)
    (hnh : toolName ∉ config.HighRiskTools) :
    (callTool accessToken serverName tasks now randRepr sendApprovalOutcome
        downstreamCall toolName toolargs progressToken).downstreamCalls =
      [(toolName, toolargs)] ∧
    (callTool accessToken serverName tasks now randRepr sendApprovalOutcome
        downstreamCall toolName toolargs progressToken).result =
      (match downstreamCall toolName toolargs with
       | Except.ok r => some r
       | Except.error _ => none) ∧
    (callTool accessToken serverName tasks now randRepr sendApprovalOutcome
        downstreamCall toolName toolargs progressToken).tasks = tasks ∧
    (callTool accessToken serverName tasks now randRepr sendApprovalOutcome
        downstreamCall toolName toolargs progressToken).approvalRequests = 0 := by
  cases h : downstreamCall toolName toolargs with
  | ok r => exact ⟨by simp [callTool, hcfg, hnb, hnh, h], by simp [callTool, hcfg, hnb, hnh, h],
      by simp [callTool, hcfg, hnb, hnh, h], by simp [callTool, hcfg, hnb, hnh, h]⟩
  | error e => exact ⟨by simp [callTool, hcfg, hnb, hnh, h], by simp [callTool, hcfg, hnb, hnh, h],
      by simp [callTool, hcfg, hnb, hnh, h], by simp [callTool, hcfg, hnb, hnh, h]⟩

/-- C9 witness: the amended statement at a concrete NORMAL tool whose
downstream call succeeds. -/
theorem c9_witness :
    (callTool "tok" "todo-mcp-server" [] 1 "0.abcd" (Except.ok "oob")
        (fun _ _ => Except.ok { content := [⟨"text", "list"⟩] }) "get_todos" JValue.jnull
        none).downstreamCalls = [("get_todos", JValue.jnull)] ∧
    (callTool "tok" "todo-mcp-server" [] 1 "0.abcd" (Except.ok "oob")
        (fun _ _ => Except.ok { content := [⟨"text", "list"⟩] }) "get_todos" JValue.jnull
        none).result =
      (match (fun _ _ => Except.ok { content := [⟨"text", "list"⟩] } :
          String → JValue → Except ErrObj CallResult) "get_todos" JValue.jnull with
       | Except.ok r => some r
       | Except.error _ => none) ∧
    (callTool "tok" "todo-mcp-server" [] 1 "0.abcd" (Except.ok "oob")
        (fun _ _ => Except.ok { content := [⟨"text", "list"⟩] }) "get_todos" JValue.jnull
        none).tasks = [] ∧
    (callTool "tok" "todo-mcp-server" [] 1 "0.abcd" (Except.ok "oob")
        (fun _ _ => Except.ok { content := [⟨"text", "list"⟩] }) "get_todos" JValue.jnull
        none).approvalRequests = 0 :=
  c9_normal_tool_amended "tok" "todo-mcp-server" [] 1 "0.abcd" (Except.ok "oob")
    (fun _ _ => Except.ok { content := [⟨"text", "list"⟩] }) "get_todos" JValue.jnull none
    _ rfl (by decide) (by decide)

end HITL
